import Mathlib

/-
Verification of the mobile auction marketplace backend
(src/backend/models.py, forms.py, serializers.py, views.py).

Shallow embedding conventions:
* Monetary amounts (Django DecimalField with max_digits = 10,
  decimal_places = 2) are represented exactly as an integer number of
  cents; a value is representable iff its absolute value is below 10^10.
* Timestamps (DateTimeField) are integer clock ticks (seconds); the
  wall clock (timezone.now()) is passed explicitly as a `now` argument.
* Database tables are Lean lists; object managers (filter / order_by /
  first / count / aggregate / get_or_create) become list operations.
* Text and image fields that no verified property mentions are elided
  from the records; primary keys are explicit `id` fields.
* Fallible lookups (Model.objects.get raising DoesNotExist) return
  Option; an unhandled exception is `none` at the request level.
-/

namespace Auction

/-- A Django auth User account (django.contrib.auth.models.User), with the
fields touched by RegisterAPIView / LoginAPIView.  Password hashing is out
of scope, so the credential is stored as given. -/
structure UserAcct where
  id : Nat
  username : String
  email : String
  password : String
  first_name : String
  last_name : String
  deriving DecidableEq

/-- models.Profile: public marketplace identity, linked to its backing
account by the `user` foreign key. -/
structure Profile where
  id : Nat
  user : Nat
  username : String
  deriving DecidableEq

/-- models.Item: an auctioned listing.  `starting_bid` is in cents,
`end_time` in clock ticks. -/
structure Item where
  id : Nat
  owner : Nat
  starting_bid : Int
  end_time : Int
  deriving DecidableEq

/-- models.Bid: a monetary offer (`bid_amount` in cents) on an Item. -/
structure Bid where
  id : Nat
  item : Nat
  bidder : Nat
  bid_amount : Int
  deriving DecidableEq

/-- models.Review: a 1..5 star rating left on a Profile. -/
structure Review where
  id : Nat
  reviewer : Nat
  reviewed_profile : Nat
  numerical_rating : Int
  deriving DecidableEq

/-- rest_framework.authtoken Token: one opaque key per user account. -/
structure TokenRec where
  user : Nat
  key : Nat
  deriving DecidableEq

/-- The persistent store: one list per table, plus a fresh-id counter
standing in for primary-key / token-key generation. -/
structure DB where
  users : List UserAcct
  profiles : List Profile
  items : List Item
  bids : List Bid
  reviews : List Review
  tokens : List TokenRec
  nextId : Nat
  deriving DecidableEq

/-- Item.get_num_bids: `Bid.objects.filter(item=self).count()`. -/
def get_num_bids (db : DB) (self : Item) : Nat :=
  (db.bids.filter (fun b => b.item == self.id)).length

/-- Ordering used to embed `order_by('-bid_amount')` (descending); ties
are broken arbitrarily by the database, so any correct sort embeds it. -/
def bidDesc (a b : Bid) : Prop :=
  b.bid_amount ≤ a.bid_amount

instance : DecidableRel bidDesc :=
  fun a b => Int.decLe b.bid_amount a.bid_amount

/-- Item.get_current_bid:
`Bid.objects.filter(item=self).order_by('-bid_amount').first()`, falling
back to `self.starting_bid` when there is no bid. -/
def get_current_bid (db : DB) (self : Item) : Int :=
  match ((db.bids.filter (fun b => b.item == self.id)).insertionSort bidDesc).head? with
  | some highest => highest.bid_amount
  | none => self.starting_bid

/-- Result of Item.get_time_left: either the string sentinel "Ended" or a
timedelta (kept as tick count). -/
inductive TimeLeft where
  | ended
  | dur (seconds : Int)
  deriving DecidableEq

/-- Item.get_time_left: `self.end_time - timezone.now()`, returning the
sentinel exactly when `total_seconds() < 0` (strictly negative). -/
def get_time_left (self : Item) (now : Int) : TimeLeft :=
  let time_left := self.end_time - now
  if time_left < 0 then TimeLeft.ended else TimeLeft.dur time_left

/-- A Python value as produced by the ORM aggregate call: None, a number,
or the one-entry dict `QuerySet.aggregate` returns for a single
aggregate expression. -/
inductive PyValue where
  | null
  | num (q : ℚ)
  | dictSingle (key : String) (val : PyValue)
  deriving DecidableEq

/-- The `Avg` aggregation primitive: null on an empty input set, the
arithmetic mean otherwise. -/
def avg_aggregate (l : List ℚ) : PyValue :=
  if l.isEmpty then PyValue.null else PyValue.num (l.sum / l.length)

/-- Profile.get_average_rating:
`Review.objects.filter(reviewed_profile=self).aggregate(Avg('numerical_rating'))`
— note the return value is the aggregate's one-entry dict, keyed by
'numerical_rating__avg'. -/
def get_average_rating (db : DB) (self : Nat) : PyValue :=
  PyValue.dictSingle ("numerical_rating__avg")
    (avg_aggregate
      ((db.reviews.filter (fun r => r.reviewed_profile == self)).map
        (fun r => (r.numerical_rating : ℚ))))

/-- Zero-padding of minutes/seconds in Python str(timedelta). -/
def pad2 (n : Int) : String :=
  if n < 10 then ("0") ++ toString n else toString n

/-- Python str(timedelta(seconds=s)) for a non-negative number of whole
seconds: "[D day[s], ]H:MM:SS". -/
def timedeltaStr (s : Int) : String :=
  let days := s / 86400
  let rem := s % 86400
  let hms := toString (rem / 3600) ++ (":") ++ pad2 ((rem % 3600) / 60) ++ (":") ++ pad2 (rem % 60)
  if days == 0 then hms
  else if days == 1 then ("1 day, ") ++ hms
  else toString days ++ (" days, ") ++ hms

/-- ItemSerializer.get_time_left: passes the sentinel through unchanged,
otherwise `str(time_left)`. -/
def itemSerializer_get_time_left (obj : Item) (now : Int) : String :=
  match get_time_left obj now with
  | TimeLeft.ended => "Ended"
  | TimeLeft.dur s => timedeltaStr s

/-- An outbound JSON number for a monetary field: either the exact
fixed-point decimal rendering of a DecimalField, or the result of a
Python float(...) conversion (tagged; IEEE rounding not modelled — the
tag records that the value left exact decimal representation). -/
inductive JsonNum where
  | decimalStr (cents : Int)
  | pyFloat (q : ℚ)
  deriving DecidableEq

/-- Exact rational value of a cents amount (d = cents / 100). -/
def centsToRat (c : Int) : ℚ :=
  (c : ℚ) / 100

/-- ItemSerializer.get_current_bid: `float(obj.get_current_bid())` — the
model-layer decimal is converted to a Python float on the way out. -/
def itemSerializer_get_current_bid (db : DB) (obj : Item) : JsonNum :=
  JsonNum.pyFloat (centsToRat (get_current_bid db obj))

/-- ItemSerializer outbound `starting_bid`: the DecimalField is rendered
as an exact fixed-point decimal. -/
def itemSerializer_starting_bid (obj : Item) : JsonNum :=
  JsonNum.decimalStr obj.starting_bid

/-- BidSerializer outbound `bid_amount`: exact fixed-point decimal. -/
def bidSerializer_bid_amount (obj : Bid) : JsonNum :=
  JsonNum.decimalStr obj.bid_amount

/-- MyLoginRequiredMixin.get_logged_in_profile:
`Profile.objects.get(user=user)`, None when the account has no Profile.
`user` is the authenticated account id (None when anonymous). -/
def get_logged_in_profile (db : DB) (user : Option Nat) : Option Nat :=
  match user with
  | none => none
  | some u => (db.profiles.find? (fun p => p.user == u)).map (fun p => p.id)

/-- Request outcome across the page and API handler embeddings. -/
inductive Resp where
  | ok
  | created
  | badRequest
  | notFound
  | unauthorized
  | redirectProfile
  | invalidForm
  deriving DecidableEq

/-- The writable Item fields carried by Create/UpdateItemForm that this
embedding models (title/description/image elided). -/
structure ItemForm where
  starting_bid : Int
  end_time : Int
  deriving DecidableEq

/-- Applying a bound UpdateItemForm to an Item instance. -/
def apply_item_form (f : ItemForm) (it : Item) : Item :=
  { it with starting_bid := f.starting_bid, end_time := f.end_time }

/-- UpdateItemView.get_queryset: `Item.objects.filter(owner=profile)` for
the acting Profile, `Item.objects.none()` when the account has none. -/
def updateItemView_queryset (db : DB) (user : Option Nat) : List Item :=
  match get_logged_in_profile db user with
  | some p => db.items.filter (fun it => it.owner == p)
  | none => []

/-- DeleteItemView.get_queryset: same ownership filter as update. -/
def deleteItemView_queryset (db : DB) (user : Option Nat) : List Item :=
  match get_logged_in_profile db user with
  | some p => db.items.filter (fun it => it.owner == p)
  | none => []

/-- The stored result of an accepted item update: the target row gets the
form's field values. -/
def db_update_item (db : DB) (pk : Nat) (f : ItemForm) : DB :=
  { db with items := db.items.map (fun it => if it.id == pk then apply_item_form f it else it) }

/-- The stored result of an accepted item delete: the row is removed and
its Bids cascade-delete with it. -/
def db_delete_item (db : DB) (pk : Nat) : DB :=
  { db with
    items := db.items.filter (fun it => !(it.id == pk)),
    bids := db.bids.filter (fun b => !(b.item == pk)) }

/-- UpdateItemView handling a valid submission: the generic UpdateView
resolves the target inside get_queryset's result; a pk outside that set
is a 404 and nothing is written. -/
def updateItemView_post (db : DB) (user : Option Nat) (pk : Nat) (f : ItemForm) : Resp × DB :=
  match (updateItemView_queryset db user).find? (fun it => it.id == pk) with
  | none => (Resp.notFound, db)
  | some _ => (Resp.ok, db_update_item db pk f)

/-- DeleteItemView handling a confirmed delete, same queryset gating. -/
def deleteItemView_post (db : DB) (user : Option Nat) (pk : Nat) : Resp × DB :=
  match (deleteItemView_queryset db user).find? (fun it => it.id == pk) with
  | none => (Resp.notFound, db)
  | some _ => (Resp.ok, db_delete_item db pk)

/-- ItemDetailAPIView (RetrieveUpdateDestroyAPIView) update: its queryset
is `Item.objects.all()` — no ownership filter, no acting-profile input. -/
def itemDetailAPIView_update (db : DB) (pk : Nat) (f : ItemForm) : Resp × DB :=
  match db.items.find? (fun it => it.id == pk) with
  | none => (Resp.notFound, db)
  | some _ => (Resp.ok, db_update_item db pk f)

/-- ItemDetailAPIView delete: unfiltered queryset, anyone may hit it. -/
def itemDetailAPIView_delete (db : DB) (pk : Nat) : Resp × DB :=
  match db.items.find? (fun it => it.id == pk) with
  | none => (Resp.notFound, db)
  | some _ => (Resp.ok, db_delete_item db pk)

/-- Ordering used to embed `order_by('end_time')` (ascending). -/
def endTimeAsc (a b : Item) : Prop :=
  a.end_time ≤ b.end_time

instance : DecidableRel endTimeAsc :=
  fun a b => Int.decLe a.end_time b.end_time

/-- EndingSoonItemsAPIView.get:
`Item.objects.filter(end_time__gt=now, end_time__lte=now + timedelta(hours=24)).order_by('end_time')`. -/
def ending_soon_items (db : DB) (now : Int) : List Item :=
  let tomorrow := now + 24 * 3600
  (db.items.filter (fun it => decide (now < it.end_time) && decide (it.end_time ≤ tomorrow))).insertionSort endTimeAsc

/-- Python falsiness of a str-or-None request field: `not x` holds for a
missing key (None) and for the empty string. -/
def isBlank (s : Option String) : Bool :=
  match s with
  | none => true
  | some t => t == ""

/-- The body fields RegisterAPIView.post reads from request.data. -/
structure RegisterRequest where
  username : Option String
  email : Option String
  password : Option String
  first_name : Option String
  last_name : Option String
  profile_username : Option String
  bio_text : Option String
  deriving DecidableEq

/-- Outcome of RegisterAPIView.post: 400, or 201 carrying the new token
key. -/
inductive RegisterResult where
  | badRequest
  | created (token : Nat)
  deriving DecidableEq

/-- The account created by User.objects.create_user in
RegisterAPIView.post (fresh pk, missing optional fields default ''). -/
def register_new_user (db : DB) (req : RegisterRequest) : UserAcct :=
  { id := db.nextId,
    username := req.username.getD "",
    email := req.email.getD "",
    password := req.password.getD "",
    first_name := req.first_name.getD "",
    last_name := req.last_name.getD "" }

/-- The Profile created by Profile.objects.create in
RegisterAPIView.post; profile_username defaults to username. -/
def register_new_profile (db : DB) (req : RegisterRequest) : Profile :=
  { id := db.nextId + 1,
    user := db.nextId,
    username := (req.profile_username.getD (req.username.getD "")) }

/-- The store after a successful registration: the account, its Profile
and a Token are all added. -/
def register_success_db (db : DB) (req : RegisterRequest) : DB :=
  { db with
    users := db.users ++ [register_new_user db req],
    profiles := db.profiles ++ [register_new_profile db req],
    tokens := db.tokens ++ [{ user := db.nextId, key := db.nextId + 2 }],
    nextId := db.nextId + 3 }

/-- RegisterAPIView.post: 400 on a missing/blank required field, 400 when
the username already names an account, else creates the account, its
Profile and a Token and answers 201. -/
def register (db : DB) (req : RegisterRequest) : RegisterResult × DB :=
  if isBlank req.username || isBlank req.email || isBlank req.password then
    (RegisterResult.badRequest, db)
  else if db.users.any (fun u => u.username == req.username.getD "") then
    (RegisterResult.badRequest, db)
  else
    (RegisterResult.created (db.nextId + 2), register_success_db db req)

/-- django.contrib.auth.authenticate: the account whose username and
password both match, if any. -/
def authenticate (db : DB) (username password : String) : Option UserAcct :=
  db.users.find? (fun u => u.username == username && u.password == password)

/-- Outcome of LoginAPIView.post. -/
inductive LoginResult where
  | badRequest
  | unauthorized
  | okToken (key : Nat)
  deriving DecidableEq

/-- The token row Token.objects.get_or_create adds when the account has
none yet. -/
def login_new_token (db : DB) (u : UserAcct) : TokenRec :=
  { user := u.id, key := db.nextId }

/-- The store after a first login created a token for the account. -/
def login_new_token_db (db : DB) (u : UserAcct) : DB :=
  { db with
    tokens := db.tokens ++ [login_new_token db u],
    nextId := db.nextId + 1 }

/-- LoginAPIView.post: 400 on missing credentials, 401 on bad ones, else
`Token.objects.get_or_create(user=user)` — the existing token is returned
when present, a fresh one is created only otherwise. -/
def login (db : DB) (username password : Option String) : LoginResult × DB :=
  if isBlank username || isBlank password then
    (LoginResult.badRequest, db)
  else
    match authenticate db (username.getD "") (password.getD "") with
    | none => (LoginResult.unauthorized, db)
    | some u =>
      match db.tokens.find? (fun t => t.user == u.id) with
      | some t => (LoginResult.okToken t.key, db)
      | none => (LoginResult.okToken db.nextId, login_new_token_db db u)

/-- Validation of a DecimalField(max_digits=10, decimal_places=2) value
given in cents: at most 10 significant decimal digits. -/
def decimal_10_2_valid (cents : Int) : Bool :=
  cents.natAbs < 10000000000

/-- CreateBidForm.is_valid: the form's only field is bid_amount, so
validation is exactly the DecimalField check — no positivity, minimum or
increment constraint. -/
def createBidForm_is_valid (cents : Int) : Bool :=
  decimal_10_2_valid cents

/-- BidSerializer.is_valid for a create: item_id is a required
PrimaryKeyRelatedField over all Items, bidder_id an optional one over all
Profiles, bid_amount the plain DecimalField — again no amount check. -/
def bidSerializer_is_valid (db : DB) (item_id : Option Nat) (bidder_id : Option Nat) (cents : Int) : Bool :=
  (match item_id with
   | none => false
   | some i => db.items.any (fun it => it.id == i)) &&
  (match bidder_id with
   | none => true
   | some b => db.profiles.any (fun p => p.id == b)) &&
  decimal_10_2_valid cents

/-- CreateBidView handling a POST to item/<item_id>/bid/: the view
fetches the Item (unhandled DoesNotExist → none), form validation runs,
then form_valid injects the item and the acting profile (redirecting to
profile creation when the account has no Profile). -/
def createBidView_post (db : DB) (user : Option Nat) (item_id : Nat) (cents : Int) : Option (Resp × DB) :=
  match db.items.find? (fun it => it.id == item_id) with
  | none => none
  | some item =>
    if createBidForm_is_valid cents then
      match get_logged_in_profile db user with
      | some p =>
        some (Resp.created,
          { db with
            bids := db.bids ++ [{ id := db.nextId, item := item.id, bidder := p, bid_amount := cents }],
            nextId := db.nextId + 1 })
      | none => some (Resp.redirectProfile, db)
    else
      some (Resp.invalidForm, db)

/-- Review.Rating.choices: the closed set of admissible ratings. -/
def ratingChoices : List Int := [1, 2, 3, 4, 5]

/-- Validation of the `numerical_rating` ChoiceField generated from
`IntegerField(choices=Rating.choices)`. -/
def reviewRating_is_valid (r : Int) : Bool :=
  ratingChoices.contains r

/-- ReviewSerializer.is_valid for a create: reviewer_id optional,
reviewed_profile_id required (both over all Profiles), numerical_rating
constrained to the choices. -/
def reviewSerializer_is_valid (db : DB) (reviewer_id : Option Nat) (reviewed_profile_id : Option Nat) (rating : Int) : Bool :=
  (match reviewer_id with
   | none => true
   | some r => db.profiles.any (fun p => p.id == r)) &&
  (match reviewed_profile_id with
   | none => false
   | some r => db.profiles.any (fun p => p.id == r)) &&
  reviewRating_is_valid rating

/-- ReviewListCreateAPIView POST: serializer validation gates storage —
an invalid payload is a 400 and no Review row is written. -/
def review_api_create (db : DB) (reviewer_id : Option Nat) (reviewed_profile_id : Option Nat) (rating : Int) : Resp × DB :=
  if reviewSerializer_is_valid db reviewer_id reviewed_profile_id rating then
    (Resp.created,
      { db with
        reviews := db.reviews ++
          [{ id := db.nextId,
             reviewer := reviewer_id.getD 0,
             reviewed_profile := reviewed_profile_id.getD 0,
             numerical_rating := rating }],
        nextId := db.nextId + 1 })
  else
    (Resp.badRequest, db)

/-- ReviewDetailAPIView partial update of numerical_rating: the same
ChoiceField validation runs before the row is touched. -/
def review_api_update (db : DB) (pk : Nat) (rating : Int) : Resp × DB :=
  match db.reviews.find? (fun r => r.id == pk) with
  | none => (Resp.notFound, db)
  | some _ =>
    if reviewRating_is_valid rating then
      (Resp.ok,
        { db with
          reviews := db.reviews.map
            (fun r => if r.id == pk then { r with numerical_rating := rating } else r) })
    else
      (Resp.badRequest, db)

/-
Theorems.
-/

instance : IsTotal Bid bidDesc :=
  ⟨by intro a b; simp only [bidDesc]; omega⟩

instance : IsTrans Bid bidDesc :=
  ⟨by intro a b c hab hbc; simp only [bidDesc] at *; omega⟩

instance : IsTotal Item endTimeAsc :=
  ⟨by intro a b; simp only [endTimeAsc]; omega⟩

instance : IsTrans Item endTimeAsc :=
  ⟨by intro a b c hab hbc; simp only [endTimeAsc] at *; omega⟩

/-- The head of a nonempty descending-sorted bid list is a bid of the
list with maximal amount. -/
lemma head_sortDesc_max (l : List Bid) (h : l ≠ []) :
    ∃ b, (l.insertionSort bidDesc).head? = some b ∧ b ∈ l ∧
      ∀ x ∈ l, x.bid_amount ≤ b.bid_amount := by
  have hsorted := List.sorted_insertionSort bidDesc l
  have hperm := List.perm_insertionSort bidDesc l
  cases hms : l.insertionSort bidDesc with
  | nil =>
    exfalso
    have hlen := hperm.length_eq
    rw [hms] at hlen
    exact h (List.eq_nil_of_length_eq_zero hlen.symm)
  | cons b t =>
    refine ⟨b, rfl, ?_, ?_⟩
    · have hb : b ∈ l.insertionSort bidDesc := by
        rw [hms]; exact List.mem_cons_self b t
      exact hperm.mem_iff.mp hb
    · intro x hx
      have hxms : x ∈ l.insertionSort bidDesc := hperm.mem_iff.mpr hx
      rw [hms] at hxms
      rcases List.mem_cons.mp hxms with heq | hxt
      · rw [heq]
      · have hs : List.Sorted bidDesc (b :: t) := by rw [hms] at hsorted; exact hsorted
        exact (List.sorted_cons.mp hs).1 x hxt

/-- Claim C1: for every Item with at least one Bid, get_current_bid is
the maximum bid_amount among that Item's Bids (a member of the amounts
that bounds them all), and for every Item with zero Bids, get_current_bid
is its starting_bid and get_num_bids is 0. -/
theorem C1_current_bid_max (db : DB) (it : Item) :
    (db.bids.filter (fun b => b.item == it.id) = [] →
      get_num_bids db it = 0 ∧ get_current_bid db it = it.starting_bid) ∧
    (db.bids.filter (fun b => b.item == it.id) ≠ [] →
      get_current_bid db it ∈
        (db.bids.filter (fun b => b.item == it.id)).map (fun b => b.bid_amount) ∧
      ∀ a ∈ (db.bids.filter (fun b => b.item == it.id)).map (fun b => b.bid_amount),
        a ≤ get_current_bid db it) := by
  constructor
  · intro h
    constructor
    · simp [get_num_bids, h]
    · simp [get_current_bid, h]
  · intro h
    obtain ⟨b, hhead, hmem, hmax⟩ := head_sortDesc_max _ h
    have heq : get_current_bid db it = b.bid_amount := by
      simp [get_current_bid, hhead]
    constructor
    · rw [heq]
      exact List.mem_map_of_mem _ hmem
    · intro a ha
      rw [heq]
      obtain ⟨x, hx, hxa⟩ := List.mem_map.mp ha
      rw [← hxa]
      exact hmax x hx

/-- Concrete store for the C1 witness: item 1 has bids of 15.00 and
12.00 over a 10.00 starting bid; item 2 has no bids. -/
def c1Item : Item := { id := 1, owner := 1, starting_bid := 1000, end_time := 100 }

def c1ItemB : Item := { id := 2, owner := 1, starting_bid := 700, end_time := 100 }

def c1Db : DB :=
  { users := [], profiles := [], items := [c1Item, c1ItemB],
    bids := [{ id := 1, item := 1, bidder := 1, bid_amount := 1500 },
             { id := 2, item := 1, bidder := 1, bid_amount := 1200 }],
    reviews := [], tokens := [], nextId := 10 }

/-- Witness for C1 at a concrete store, on both the no-bid and the
two-bid item. -/
theorem C1_current_bid_max_witness :
    (get_num_bids c1Db c1ItemB = 0 ∧ get_current_bid c1Db c1ItemB = c1ItemB.starting_bid) ∧
    (get_current_bid c1Db c1Item ∈
        (c1Db.bids.filter (fun b => b.item == c1Item.id)).map (fun b => b.bid_amount) ∧
      ∀ a ∈ (c1Db.bids.filter (fun b => b.item == c1Item.id)).map (fun b => b.bid_amount),
        a ≤ get_current_bid c1Db c1Item) :=
  ⟨(C1_current_bid_max c1Db c1ItemB).1 (by decide),
   (C1_current_bid_max c1Db c1Item).2 (by decide)⟩

/-- Concrete item whose auction ends exactly at the current instant. -/
def c2Item : Item := { id := 1, owner := 1, starting_bid := 1000, end_time := 100 }

/-- Claim C2 counterexample: with end_time − now exactly zero (a
non-positive difference), the code does NOT return "Ended" — the model
helper returns the zero duration and the serializer renders "0:00:00". -/
theorem C2_time_left_counterexample :
    c2Item.end_time - 100 = 0 ∧
    get_time_left c2Item 100 ≠ TimeLeft.ended ∧
    itemSerializer_get_time_left c2Item 100 = "0:00:00" ∧
    itemSerializer_get_time_left c2Item 100 ≠ "Ended" := by
  decide

/-- Claim C2 as amended: time_left is the sentinel "Ended" exactly when
end_time − now is strictly negative; a zero or positive difference is
returned as the duration, rendered via str(timedelta). -/
theorem C2_time_left_amended (it : Item) (now : Int) :
    (it.end_time - now < 0 →
      get_time_left it now = TimeLeft.ended ∧
      itemSerializer_get_time_left it now = "Ended") ∧
    (0 ≤ it.end_time - now →
      get_time_left it now = TimeLeft.dur (it.end_time - now) ∧
      itemSerializer_get_time_left it now = timedeltaStr (it.end_time - now)) := by
  constructor
  · intro h
    have hg : get_time_left it now = TimeLeft.ended := by
      simp [get_time_left, h]
    exact ⟨hg, by simp [itemSerializer_get_time_left, hg]⟩
  · intro h
    have hg : get_time_left it now = TimeLeft.dur (it.end_time - now) := by
      simp [get_time_left]
      omega
    exact ⟨hg, by simp [itemSerializer_get_time_left, hg]⟩

/-- Witness for the amended C2 at concrete instants on both sides of the
boundary. -/
theorem C2_time_left_amended_witness :
    itemSerializer_get_time_left c2Item 200 = "Ended" ∧
    itemSerializer_get_time_left c2Item 0 = timedeltaStr 100 :=
  ⟨((C2_time_left_amended c2Item 200).1 (by decide)).2,
   ((C2_time_left_amended c2Item 0).2 (by decide)).2⟩

/-- When no item with the requested pk is owned by the acting profile,
both ownership-filtered querysets fail to resolve the pk. -/
lemma ownerQueryset_find_none (db : DB) (user : Option Nat) (pk : Nat)
    (h : ∀ it ∈ db.items, it.id = pk → get_logged_in_profile db user ≠ some it.owner) :
    (updateItemView_queryset db user).find? (fun it => it.id == pk) = none ∧
    (deleteItemView_queryset db user).find? (fun it => it.id == pk) = none := by
  have key : ∀ (qs : List Item),
      qs = (match get_logged_in_profile db user with
            | some p => db.items.filter (fun it => it.owner == p)
            | none => []) →
      qs.find? (fun it => it.id == pk) = none := by
    intro qs hqs
    rw [List.find?_eq_none]
    intro x hx
    cases hp : get_logged_in_profile db user with
    | none =>
      rw [hp] at hqs
      rw [hqs] at hx
      exact absurd hx (List.not_mem_nil x)
    | some p =>
      rw [hp] at hqs
      rw [hqs] at hx
      obtain ⟨hxitems, hxowner⟩ := List.mem_filter.mp hx
      simp only [beq_iff_eq] at hxowner
      simp only [beq_iff_eq]
      intro hid
      have := h x hxitems hid
      rw [hp, hxowner] at this
      exact this rfl
  exact ⟨key _ rfl, key _ rfl⟩

/-- Claim C3 counterexample: profile 2 (account 2) does not own item 1
(owned by profile 1), yet the JSON API item detail view updates and
deletes it successfully instead of answering not-found. -/
def c3Db : DB :=
  { users := [{ id := 1, username := "alice", email := "a", password := "pw", first_name := "", last_name := "" },
              { id := 2, username := "bob", email := "b", password := "pw", first_name := "", last_name := "" }],
    profiles := [{ id := 1, user := 1, username := "alice_p" },
                 { id := 2, user := 2, username := "bob_p" }],
    items := [{ id := 1, owner := 1, starting_bid := 1000, end_time := 100 }],
    bids := [], reviews := [], tokens := [], nextId := 10 }

def c3Form : ItemForm := { starting_bid := 500, end_time := 100 }

/-- Claim C3 is false on the API surface: the acting account 2 resolves
to profile 2, item 1 is owned by profile 1, and still the API update
answers ok and mutates the store, and the API delete answers ok and
removes the item. -/
theorem C3_ownership_counterexample :
    get_logged_in_profile c3Db (some 2) = some 2 ∧
    (∀ it ∈ c3Db.items, it.id = 1 → it.owner = 1) ∧
    (itemDetailAPIView_update c3Db 1 c3Form).1 = Resp.ok ∧
    (itemDetailAPIView_update c3Db 1 c3Form).2 ≠ c3Db ∧
    (itemDetailAPIView_delete c3Db 1).1 = Resp.ok ∧
    (itemDetailAPIView_delete c3Db 1).2 ≠ c3Db := by
  decide

/-- Claim C3 as amended: on the page surface (UpdateItemView and
DeleteItemView), a request whose target item is not owned by the acting
profile — including when the account has no profile — is answered
not-found and the store is unchanged.  The JSON API ItemDetailAPIView
carries no such restriction. -/
theorem C3_ownership_page_amended (db : DB) (user : Option Nat) (pk : Nat) (f : ItemForm)
    (h : ∀ it ∈ db.items, it.id = pk → get_logged_in_profile db user ≠ some it.owner) :
    updateItemView_post db user pk f = (Resp.notFound, db) ∧
    deleteItemView_post db user pk = (Resp.notFound, db) := by
  obtain ⟨hu, hd⟩ := ownerQueryset_find_none db user pk h
  constructor
  · simp [updateItemView_post, hu]
  · simp [deleteItemView_post, hd]

/-- Witness for the amended C3: account 2 targets item 1 (owned by
profile 1) through the page views and gets not-found with no change. -/
theorem C3_ownership_page_amended_witness :
    updateItemView_post c3Db (some 2) 1 c3Form = (Resp.notFound, c3Db) ∧
    deleteItemView_post c3Db (some 2) 1 = (Resp.notFound, c3Db) :=
  C3_ownership_page_amended c3Db (some 2) 1 c3Form (by decide)

/-- Claim C4: a register request with a blank/missing required field or a
username that already names an account is answered 400 with the store
unchanged; otherwise the account, a Profile linked to it and a Token for
it are created together and the answer is 201. -/
theorem C4_register (db : DB) (req : RegisterRequest) :
    ((isBlank req.username || isBlank req.email || isBlank req.password) = true →
      register db req = (RegisterResult.badRequest, db)) ∧
    ((isBlank req.username || isBlank req.email || isBlank req.password) = false →
      db.users.any (fun u => u.username == req.username.getD "") = true →
      register db req = (RegisterResult.badRequest, db)) ∧
    ((isBlank req.username || isBlank req.email || isBlank req.password) = false →
      db.users.any (fun u => u.username == req.username.getD "") = false →
      ∃ key db2, register db req = (RegisterResult.created key, db2) ∧
        db2.users.length = db.users.length + 1 ∧
        db2.profiles.length = db.profiles.length + 1 ∧
        db2.tokens.length = db.tokens.length + 1 ∧
        ∃ u, u ∈ db2.users ∧ u.username = req.username.getD "" ∧
          (∃ p, p ∈ db2.profiles ∧ p.user = u.id) ∧
          (∃ t, t ∈ db2.tokens ∧ t.user = u.id ∧ t.key = key)) := by
  refine ⟨?_, ?_, ?_⟩
  · intro h
    simp [register, h]
  · intro h1 h2
    simp [register, h1, h2]
  · intro h1 h2
    refine ⟨db.nextId + 2, register_success_db db req, ?_, ?_, ?_, ?_, ?_⟩
    · simp [register, h1, h2]
    · simp [register_success_db]
    · simp [register_success_db]
    · simp [register_success_db]
    · refine ⟨register_new_user db req, ?_, rfl, ?_, ?_⟩
      · simp [register_success_db]
      · exact ⟨register_new_profile db req, by simp [register_success_db], rfl⟩
      · exact ⟨{ user := db.nextId, key := db.nextId + 2 }, by simp [register_success_db], rfl, rfl⟩

/-- Store and requests for the C4 witness: accounts alice and bob exist. -/
def c4Db : DB :=
  { users := [{ id := 1, username := "alice", email := "a", password := "pw", first_name := "", last_name := "" },
              { id := 2, username := "bob", email := "b", password := "pw", first_name := "", last_name := "" }],
    profiles := [{ id := 1, user := 1, username := "alice_p" }],
    items := [], bids := [], reviews := [], tokens := [], nextId := 3 }

def c4ReqMissing : RegisterRequest :=
  { username := some "carol", email := none, password := some "pw",
    first_name := none, last_name := none, profile_username := none, bio_text := none }

def c4ReqDup : RegisterRequest :=
  { username := some "alice", email := some "a2", password := some "pw",
    first_name := none, last_name := none, profile_username := none, bio_text := none }

def c4ReqNew : RegisterRequest :=
  { username := some "carol", email := some "c", password := some "pw",
    first_name := none, last_name := none, profile_username := none, bio_text := none }

/-- Witness for C4 on all three branches: missing email, duplicate
username, and a fresh registration. -/
theorem C4_register_witness :
    register c4Db c4ReqMissing = (RegisterResult.badRequest, c4Db) ∧
    register c4Db c4ReqDup = (RegisterResult.badRequest, c4Db) ∧
    (∃ key db2, register c4Db c4ReqNew = (RegisterResult.created key, db2) ∧
      db2.users.length = c4Db.users.length + 1 ∧
      db2.profiles.length = c4Db.profiles.length + 1 ∧
      db2.tokens.length = c4Db.tokens.length + 1 ∧
      ∃ u, u ∈ db2.users ∧ u.username = c4ReqNew.username.getD "" ∧
        (∃ p, p ∈ db2.profiles ∧ p.user = u.id) ∧
        (∃ t, t ∈ db2.tokens ∧ t.user = u.id ∧ t.key = key)) :=
  ⟨(C4_register c4Db c4ReqMissing).1 (by decide),
   (C4_register c4Db c4ReqDup).2.1 (by decide) (by decide),
   (C4_register c4Db c4ReqNew).2.2 (by decide) (by decide)⟩

/-- Claim C5: the numerical_rating choice validation accepts exactly
{1,2,3,4,5}; an invalid rating makes both review creation and review
update answer 400 with the store untouched, while a fully valid create
payload stores a Review carrying that rating. -/
theorem C5_review_rating (db : DB) (reviewer_id reviewed_id : Option Nat) (pk : Nat) (rating : Int) :
    (reviewRating_is_valid rating = true ↔
      rating = 1 ∨ rating = 2 ∨ rating = 3 ∨ rating = 4 ∨ rating = 5) ∧
    (reviewRating_is_valid rating = false →
      review_api_create db reviewer_id reviewed_id rating = (Resp.badRequest, db) ∧
      ((∃ r, r ∈ db.reviews ∧ r.id = pk) →
        review_api_update db pk rating = (Resp.badRequest, db))) ∧
    (reviewSerializer_is_valid db reviewer_id reviewed_id rating = true →
      ∃ db2, review_api_create db reviewer_id reviewed_id rating = (Resp.created, db2) ∧
        db2.reviews.length = db.reviews.length + 1 ∧
        ∃ r, r ∈ db2.reviews ∧ r.numerical_rating = rating) := by
  refine ⟨?_, ?_, ?_⟩
  · simp [reviewRating_is_valid, ratingChoices]
  · intro h
    constructor
    · have hval : reviewSerializer_is_valid db reviewer_id reviewed_id rating = false := by
        simp [reviewSerializer_is_valid, h]
      simp [review_api_create, hval]
    · rintro ⟨r0, hr0, hid⟩
      have hsome : (db.reviews.find? (fun r => r.id == pk)).isSome := by
        rw [List.find?_isSome]
        exact ⟨r0, hr0, by simp [hid]⟩
      cases hf : db.reviews.find? (fun r => r.id == pk) with
      | none => rw [hf] at hsome; simp at hsome
      | some r1 => simp [review_api_update, hf, h]
  · intro h
    refine ⟨{ db with
        reviews := db.reviews ++
          [{ id := db.nextId,
             reviewer := reviewer_id.getD 0,
             reviewed_profile := reviewed_id.getD 0,
             numerical_rating := rating }],
        nextId := db.nextId + 1 }, ?_, ?_, ?_⟩
    · simp [review_api_create, h]
    · simp
    · exact ⟨{ id := db.nextId,
               reviewer := reviewer_id.getD 0,
               reviewed_profile := reviewed_id.getD 0,
               numerical_rating := rating }, by simp, rfl⟩

/-- Store for the C5 witness: two profiles and one stored review. -/
def c5Db : DB :=
  { users := [], profiles := [{ id := 1, user := 1, username := "alice_p" },
                             { id := 2, user := 2, username := "bob_p" }],
    items := [], bids := [],
    reviews := [{ id := 7, reviewer := 1, reviewed_profile := 2, numerical_rating := 4 }],
    tokens := [], nextId := 8 }

/-- Witness for C5: rating 6 is rejected by create and by update of the
stored review 7, rating 0 is invalid, and a create with rating 3 stores
a review. -/
theorem C5_review_rating_witness :
    (review_api_create c5Db (some 1) (some 2) 6 = (Resp.badRequest, c5Db) ∧
      review_api_update c5Db 7 6 = (Resp.badRequest, c5Db)) ∧
    reviewRating_is_valid 0 = false ∧
    (∃ db2, review_api_create c5Db (some 1) (some 2) 3 = (Resp.created, db2) ∧
      db2.reviews.length = c5Db.reviews.length + 1 ∧
      ∃ r, r ∈ db2.reviews ∧ r.numerical_rating = 3) :=
  ⟨⟨((C5_review_rating c5Db (some 1) (some 2) 7 6).2.1 (by decide)).1,
    ((C5_review_rating c5Db (some 1) (some 2) 7 6).2.1 (by decide)).2
      ⟨{ id := 7, reviewer := 1, reviewed_profile := 2, numerical_rating := 4 }, by decide, rfl⟩⟩,
   by decide,
   (C5_review_rating c5Db (some 1) (some 2) 7 3).2.2 (by decide)⟩

/-- What the claim says Profile.get_average_rating returns (for the
refinement comparison): the bare arithmetic mean of the ratings received
by the profile, or null when there are none. -/
def average_rating_claimed (db : DB) (pid : Nat) : PyValue :=
  let rs := db.reviews.filter (fun r => r.reviewed_profile == pid)
  if rs.isEmpty then PyValue.null
  else PyValue.num ((rs.map (fun r => (r.numerical_rating : ℚ))).sum / rs.length)

/-- Store for C6: profile 1 has received exactly one review, rated 4. -/
def c6Db : DB :=
  { users := [], profiles := [{ id := 1, user := 1, username := "alice_p" }],
    items := [], bids := [],
    reviews := [{ id := 1, reviewer := 2, reviewed_profile := 1, numerical_rating := 4 }],
    tokens := [], nextId := 2 }

/-- Claim C6 counterexample: for profile 1 the claim's value is the bare
number 4, but the code returns the aggregate's one-entry dict keyed
'numerical_rating__avg' — not the mean itself, and on an empty input not
a bare null either. -/
theorem C6_average_rating_counterexample :
    average_rating_claimed c6Db 1 = PyValue.num 4 ∧
    get_average_rating c6Db 1 ≠ average_rating_claimed c6Db 1 ∧
    get_average_rating c6Db 1 =
      PyValue.dictSingle ("numerical_rating__avg") (PyValue.num 4) ∧
    get_average_rating c6Db 99 ≠ PyValue.null := by
  have ha : average_rating_claimed c6Db 1 = PyValue.num 4 := by
    norm_num [average_rating_claimed, c6Db]
  have hc : get_average_rating c6Db 1 =
      PyValue.dictSingle ("numerical_rating__avg") (PyValue.num 4) := by
    norm_num [get_average_rating, c6Db, avg_aggregate]
  have hd : get_average_rating c6Db 99 =
      PyValue.dictSingle ("numerical_rating__avg") PyValue.null := by
    norm_num [get_average_rating, c6Db, avg_aggregate]
  refine ⟨ha, ?_, hc, ?_⟩
  · rw [ha, hc]
    intro h
    exact PyValue.noConfusion h
  · rw [hd]
    intro h
    exact PyValue.noConfusion h

/-- Claim C6 as amended: get_average_rating returns the one-entry
aggregate dict keyed 'numerical_rating__avg'; its value is null when the
profile has received no review, and otherwise the arithmetic mean of
numerical_rating over exactly the reviews whose reviewed_profile is that
profile. -/
theorem C6_average_rating_amended (db : DB) (pid : Nat) :
    ((∀ r ∈ db.reviews, r.reviewed_profile ≠ pid) →
      get_average_rating db pid =
        PyValue.dictSingle ("numerical_rating__avg") PyValue.null) ∧
    (∀ r0, r0 ∈ db.reviews → r0.reviewed_profile = pid →
      get_average_rating db pid =
        PyValue.dictSingle ("numerical_rating__avg")
          (PyValue.num
            (((db.reviews.filter (fun r => r.reviewed_profile == pid)).map
                (fun r => (r.numerical_rating : ℚ))).sum /
              ((db.reviews.filter (fun r => r.reviewed_profile == pid)).length : ℚ)))) := by
  constructor
  · intro h
    have hfil : db.reviews.filter (fun r => r.reviewed_profile == pid) = [] := by
      rw [List.filter_eq_nil_iff]
      intro a ha
      simp only [beq_iff_eq]
      exact h a ha
    simp [get_average_rating, avg_aggregate, hfil]
  · intro r0 hr0 hp
    have hmem : r0 ∈ db.reviews.filter (fun r => r.reviewed_profile == pid) :=
      List.mem_filter.mpr ⟨hr0, by simp [hp]⟩
    have hempty : ((db.reviews.filter (fun r => r.reviewed_profile == pid)).map
        (fun r => (r.numerical_rating : ℚ))).isEmpty = false := by
      rw [Bool.eq_false_iff]
      intro hemp
      rw [List.isEmpty_iff, List.map_eq_nil_iff] at hemp
      rw [hemp] at hmem
      exact List.not_mem_nil r0 hmem
    simp [get_average_rating, avg_aggregate, hempty]

/-- Witness for the amended C6: a profile with no reviews (id 99) yields
a null-valued dict, and profile 1 yields the dict holding the mean. -/
theorem C6_average_rating_amended_witness :
    get_average_rating c6Db 99 =
      PyValue.dictSingle ("numerical_rating__avg") PyValue.null ∧
    get_average_rating c6Db 1 =
      PyValue.dictSingle ("numerical_rating__avg")
        (PyValue.num
          (((c6Db.reviews.filter (fun r => r.reviewed_profile == 1)).map
              (fun r => (r.numerical_rating : ℚ))).sum /
            ((c6Db.reviews.filter (fun r => r.reviewed_profile == 1)).length : ℚ))) :=
  ⟨(C6_average_rating_amended c6Db 99).1 (by decide),
   (C6_average_rating_amended c6Db 1).2
     { id := 1, reviewer := 2, reviewed_profile := 1, numerical_rating := 4 }
     (by decide) rfl⟩

/-- Items for the C7 scenario: one ends 2 hours from now, one 30 hours
from now. -/
def c7ItemSoon : Item := { id := 1, owner := 1, starting_bid := 1000, end_time := 7200 }

def c7ItemLate : Item := { id := 2, owner := 1, starting_bid := 1000, end_time := 108000 }

def c7Db : DB :=
  { users := [], profiles := [], items := [c7ItemLate, c7ItemSoon],
    bids := [], reviews := [], tokens := [], nextId := 3 }

/-- Claim C7: the ending-soon endpoint returns exactly the items whose
end_time lies strictly after now and at most 24 hours after it, sorted by
end_time ascending; in the two-item scenario (+2h, +30h) only the +2h
item is returned. -/
theorem C7_ending_soon (db : DB) (now : Int) :
    (∀ it, it ∈ ending_soon_items db now ↔
      it ∈ db.items ∧ now < it.end_time ∧ it.end_time ≤ now + 24 * 3600) ∧
    List.Sorted (fun a b : Item => a.end_time ≤ b.end_time) (ending_soon_items db now) ∧
    ending_soon_items c7Db 0 = [c7ItemSoon] := by
  refine ⟨?_, ?_, by decide⟩
  · intro it
    simp [ending_soon_items, List.mem_insertionSort, List.mem_filter, and_assoc]
  · exact List.sorted_insertionSort endTimeAsc _

/-- If a predicate finds nothing in the front list, searching the
concatenation searches the back list. -/
lemma find?_append_of_none {α : Type} (p : α → Bool) (l1 l2 : List α)
    (h : l1.find? p = none) : (l1 ++ l2).find? p = l2.find? p := by
  rw [List.find?_append, h, Option.none_or]

/-- Claim C8: login with correct credentials answers with a token, a
second login answers with the same token value on an unchanged store
(the existing token is reused, never reissued), and the token on file
for the account carries that value. -/
theorem C8_login_token_reuse (db : DB) (uo po : Option String) (u : UserAcct)
    (hb : (isBlank uo || isBlank po) = false)
    (ha : authenticate db (uo.getD "") (po.getD "") = some u) :
    ∃ key db1,
      login db uo po = (LoginResult.okToken key, db1) ∧
      login db1 uo po = (LoginResult.okToken key, db1) ∧
      ∃ t, t ∈ db1.tokens ∧ t.user = u.id ∧ t.key = key := by
  cases hf : db.tokens.find? (fun t => t.user == u.id) with
  | some t =>
    have ht : t.user = u.id := by
      have := List.find?_some hf
      simpa using this
    refine ⟨t.key, db, ?_, ?_, t, List.mem_of_find?_eq_some hf, ht, rfl⟩
    · simp [login, hb, ha, hf]
    · simp [login, hb, ha, hf]
  | none =>
    refine ⟨db.nextId, login_new_token_db db u, ?_, ?_, ?_⟩
    · simp [login, hb, ha, hf]
    · have ha1 : authenticate (login_new_token_db db u) (uo.getD "") (po.getD "") = some u := ha
      have hf1 : (login_new_token_db db u).tokens.find?
          (fun t => t.user == u.id) = some (login_new_token db u) := by
        show (db.tokens ++ [login_new_token db u]).find?
          (fun t => t.user == u.id) = some (login_new_token db u)
        rw [find?_append_of_none _ _ _ hf]
        simp [login_new_token]
      simp [login, hb, ha1, hf1, login_new_token]
    · exact ⟨login_new_token db u, by simp [login_new_token_db], rfl, rfl⟩

/-- Store for the C8 witness: account alice exists with no token yet. -/
def c8Db : DB :=
  { users := [{ id := 1, username := "alice", email := "a", password := "pw", first_name := "", last_name := "" }],
    profiles := [], items := [], bids := [], reviews := [], tokens := [], nextId := 5 }

def c8User : UserAcct :=
  { id := 1, username := "alice", email := "a", password := "pw", first_name := "", last_name := "" }

/-- Witness for C8: alice logging in twice with the right password gets
the same token both times. -/
theorem C8_login_token_reuse_witness :
    ∃ key db1,
      login c8Db (some "alice") (some "pw") = (LoginResult.okToken key, db1) ∧
      login db1 (some "alice") (some "pw") = (LoginResult.okToken key, db1) ∧
      ∃ t, t ∈ db1.tokens ∧ t.user = c8User.id ∧ t.key = key :=
  C8_login_token_reuse c8Db (some "alice") (some "pw") c8User (by decide) (by decide)

/-- Store for C9: one item with starting bid 5.00 and a single bid of
10.00 (= 1000 cents). -/
def c9Item : Item := { id := 1, owner := 1, starting_bid := 500, end_time := 100 }

def c9Db : DB :=
  { users := [], profiles := [], items := [c9Item],
    bids := [{ id := 1, item := 1, bidder := 1, bid_amount := 1000 }],
    reviews := [], tokens := [], nextId := 2 }

/-- Claim C9 counterexample: the model-layer current bid is the exact
decimal 10.00, but the item serializer emits it through a float(...)
conversion, not as a fixed-point decimal — the claim that no conversion
to floating point happens anywhere on the storage-to-response path is
false. -/
theorem C9_monetary_float_counterexample :
    get_current_bid c9Db c9Item = 1000 ∧
    itemSerializer_get_current_bid c9Db c9Item = JsonNum.pyFloat 10 ∧
    itemSerializer_get_current_bid c9Db c9Item ≠
      JsonNum.decimalStr (get_current_bid c9Db c9Item) := by
  have h1 : get_current_bid c9Db c9Item = 1000 := by decide
  refine ⟨h1, ?_, ?_⟩
  · show JsonNum.pyFloat (centsToRat (get_current_bid c9Db c9Item)) = JsonNum.pyFloat 10
    rw [h1]
    norm_num [centsToRat]
  · intro h
    simp only [itemSerializer_get_current_bid] at h
    exact JsonNum.noConfusion h

/-- Claim C9 as amended: starting_bid and bid_amount are stored and
serialized as exact fixed-point decimals with 2 fractional digits, and
the model-layer current bid is always one of those exact stored amounts
(starting_bid or a bid's amount, no arithmetic) — but ItemSerializer
converts current_bid to a Python float in the outbound representation. -/
theorem C9_monetary_amended (db : DB) (it : Item) (b : Bid) :
    itemSerializer_starting_bid it = JsonNum.decimalStr it.starting_bid ∧
    bidSerializer_bid_amount b = JsonNum.decimalStr b.bid_amount ∧
    itemSerializer_get_current_bid db it =
      JsonNum.pyFloat (centsToRat (get_current_bid db it)) ∧
    (get_current_bid db it = it.starting_bid ∨
      ∃ b2, b2 ∈ db.bids ∧ b2.item = it.id ∧ get_current_bid db it = b2.bid_amount) := by
  refine ⟨rfl, rfl, rfl, ?_⟩
  by_cases hn : db.bids.filter (fun x => x.item == it.id) = []
  · left
    simp [get_current_bid, hn]
  · right
    obtain ⟨b0, hhead, hmem, _⟩ := head_sortDesc_max _ hn
    have heq : get_current_bid db it = b0.bid_amount := by
      simp [get_current_bid, hhead]
    obtain ⟨hb0mem, hb0item⟩ := List.mem_filter.mp hmem
    exact ⟨b0, hb0mem, by simpa using hb0item, heq⟩

/-- Store for C10: an item with starting bid 10.00, its owner, and a
second profile acting as bidder. -/
def c10Db : DB :=
  { users := [{ id := 1, username := "alice", email := "a", password := "pw", first_name := "", last_name := "" },
              { id := 2, username := "bob", email := "b", password := "pw", first_name := "", last_name := "" }],
    profiles := [{ id := 1, user := 1, username := "alice_p" },
                 { id := 2, user := 2, username := "bob_p" }],
    items := [{ id := 1, owner := 1, starting_bid := 1000, end_time := 100 }],
    bids := [], reviews := [], tokens := [], nextId := 5 }

/-- Claim C10: any amount representable in DecimalField(10,2) — zero,
negative, or below the starting/current bid included — passes both the
bid form and the bid serializer validation, and the bid-creation view
stores a Bid with exactly that amount: neither layer imposes a
positivity, minimum or increment check. -/
theorem C10_bid_amount_unconstrained (db : DB) (user : Option Nat) (item_id : Nat) (p : Nat) (cents : Int)
    (hdec : cents.natAbs < 10000000000)
    (hitem : (db.items.find? (fun it => it.id == item_id)).isSome = true)
    (hp : get_logged_in_profile db user = some p) :
    createBidForm_is_valid cents = true ∧
    bidSerializer_is_valid db (some item_id) none cents = true ∧
    ∃ db2, createBidView_post db user item_id cents = some (Resp.created, db2) ∧
      db2.bids.length = db.bids.length + 1 ∧
      ∃ b, b ∈ db2.bids ∧ b.bid_amount = cents ∧ b.item = item_id := by
  have hform : createBidForm_is_valid cents = true := by
    simp only [createBidForm_is_valid, decimal_10_2_valid, decide_eq_true_eq]
    exact hdec
  cases hfind : db.items.find? (fun it => it.id == item_id) with
  | none =>
    rw [hfind] at hitem
    simp at hitem
  | some item =>
    have hitemid : item.id = item_id := by
      have := List.find?_some hfind
      simpa using this
    have hany : db.items.any (fun it => it.id == item_id) = true := by
      rw [List.any_eq_true]
      exact ⟨item, List.mem_of_find?_eq_some hfind, by simp [hitemid]⟩
    refine ⟨hform, ?_, ?_⟩
    · simp only [bidSerializer_is_valid, hany, decimal_10_2_valid, decide_eq_true_eq,
        Bool.true_and, Bool.and_self, Bool.and_true]
      exact hdec
    · refine ⟨{ db with
        bids := db.bids ++ [{ id := db.nextId, item := item.id, bidder := p, bid_amount := cents }],
        nextId := db.nextId + 1 }, ?_, ?_, ?_⟩
      · simp [createBidView_post, hfind, hform, hp]
      · simp
      · exact ⟨{ id := db.nextId, item := item.id, bidder := p, bid_amount := cents },
          by simp, rfl, hitemid⟩

/-- Witness for C10: through the form-backed view, bidder profile 2
places a negative bid of −5.00 and a zero bid on the 10.00-start item,
both accepted and stored. -/
theorem C10_bid_amount_unconstrained_witness :
    (createBidForm_is_valid (-500) = true ∧
      bidSerializer_is_valid c10Db (some 1) none (-500) = true ∧
      ∃ db2, createBidView_post c10Db (some 2) 1 (-500) = some (Resp.created, db2) ∧
        db2.bids.length = c10Db.bids.length + 1 ∧
        ∃ b, b ∈ db2.bids ∧ b.bid_amount = -500 ∧ b.item = 1) ∧
    (createBidForm_is_valid 0 = true ∧
      bidSerializer_is_valid c10Db (some 1) none 0 = true ∧
      ∃ db2, createBidView_post c10Db (some 2) 1 0 = some (Resp.created, db2) ∧
        db2.bids.length = c10Db.bids.length + 1 ∧
        ∃ b, b ∈ db2.bids ∧ b.bid_amount = 0 ∧ b.item = 1) :=
  ⟨C10_bid_amount_unconstrained c10Db (some 2) 1 2 (-500) (by decide) (by decide) (by decide),
   C10_bid_amount_unconstrained c10Db (some 2) 1 2 0 (by decide) (by decide) (by decide)⟩

end Auction
